import Mathlib

/-!
Shallow embedding of `src/docker_mgr.py` (MC-Docker).

The module has a pure environment builder `_build_env`, two pure helpers
`isnone` and `dir_above`, and a stateful `ServerManager` class whose
operations delegate to a Docker client.  The Docker client is an external
collaborator: we model the outcome of each of its calls by a
`ClientBehavior` record (an oracle of responses), and every manager
operation returns an `OpResult` recording the manager state after the
call, the log messages emitted, the runtime calls issued, and the
uncaught Python exception, if any, that propagates to the caller.

Python strings are modelled as Lean `String`; the string primitives used
by `dir_above` (`str.endswith`, slicing `[:-1]`, `str.split("/")`,
`"/".join`) are modelled by structurally recursive functions on
`List Char` with the same semantics, so that everything evaluates by
kernel reduction.
-/

/-- Model of Python `s.split("/")` on the character list of `s`:
`splitSlash "".data = [[]]`, and separators produce empty components
exactly as in Python. -/
def splitSlash : List Char → List (List Char)
  | [] => [[]]
  | x :: xs =>
    match splitSlash xs with
    | [] => [[]]
    | y :: ys => if x = '/' then [] :: y :: ys else (x :: y) :: ys

/-- Model of Python `"/".join(parts)` on character lists. -/
def joinSlash : List (List Char) → List Char
  | [] => []
  | [x] => x
  | x :: y :: ys => x ++ '/' :: joinSlash (y :: ys)

/-- `isnone(value, default)` from the source: returns `default` when
`value` is `None`, else `value`. -/
def isnone {α : Type} (value : Option α) (fallback : α) : α :=
  match value with
  | none => fallback
  | some v => v

/-- `dir_above(dir)` from the source:
`dir = dir[:-1] if dir.endswith("/") else dir` followed by
`"/".join(dir.split("/")[:-1]) + "/"`. -/
def dir_above (dir : String) : String :=
  let d : List Char :=
    if dir.data.getLast? = some '/' then dir.data.dropLast else dir.data
  String.mk (joinSlash ((splitSlash d).dropLast) ++ ['/'])

/-- Values stored in the environment dict (`Dict[str, any]`). -/
inductive EnvVal where
  | str (s : String)
  | bool (b : Bool)
  | int (n : Int)
deriving DecidableEq, Repr

/-- The fields of the parsed CLI `Namespace` that `docker_mgr.py` reads,
plus the mod-loader source fields the spec describes (the CLI parser
itself is out of scope; `_build_env` receives the whole namespace). -/
structure ServerOptions where
  version : String
  java : String
  port : Nat
  root : String
  backupdir : Option String
  forge : Option String
  fabric : Option String
deriving DecidableEq, Repr

/-- `_build_env(args)` from the source: builds the environment dict
passed to container creation.  The source sets exactly `VERSION` from
`args.version` and `EULA = True` and returns. -/
def build_env (args : ServerOptions) : List (String × EnvVal) :=
  [("VERSION", EnvVal.str args.version), ("EULA", EnvVal.bool true)]

/-- A Docker container handle as the manager sees it: its `name` and its
`status` string. -/
structure Container where
  name : String
  status : String
deriving DecidableEq, Repr

/-- `_get_container`: linear scan of `client.containers.list(all=True)`
returning the first container whose name equals the bound name, else
`None`. -/
def get_container (containers : List Container) (name : String) : Option Container :=
  containers.find? (fun c => c.name == name)

/-- A Python exception: the `AttributeError` raised by calling a method
on a `None` container reference, or an error raised by the Docker
client, carrying its string form. -/
inductive PyErr where
  | attributeError
  | clientError (detail : String)
deriving DecidableEq, Repr

/-- `str(exception)` as logged by `self._log.err(exception)`. -/
def PyErr.message : PyErr → String
  | .attributeError => "NoneType object has no attribute"
  | .clientError d => d

/-- The log levels of the `Logger` collaborator. -/
inductive LogLevel where
  | success
  | notice
  | warn
  | info
  | err
deriving DecidableEq, Repr

/-- One logged message. -/
structure LogEntry where
  level : LogLevel
  msg : String
deriving DecidableEq, Repr

/-- The runtime calls an operation can issue against the Docker client
or the docker CLI.  `runBackup` records the host path mounted at
`/backups`. -/
inductive RtCall where
  | run
  | runBackup (backupMount : String)
  | start
  | kill
  | stop
  | restart
  | remove
  | inspect
  | list
  | execConsole
deriving DecidableEq, Repr

/-- Oracle for the external Docker client: the outcome of each runtime
call an operation may issue, and the container list returned by
`containers.list(all=True)` when a reference is refreshed. -/
structure ClientBehavior where
  runResult : Except PyErr Unit
  runBackupResult : Except PyErr Container
  startResult : Except PyErr Unit
  killResult : Except PyErr Unit
  stopResult : Except PyErr Unit
  restartResult : Except PyErr Unit
  removeResult : Except PyErr Unit
  inspectHealth : Except PyErr String
  containersList : List Container

/-- The mutable state of a `ServerManager` instance: the bound `_name`,
the nullable `_container` reference and the nullable
`_backup_container` reference. -/
structure ServerManager where
  name : String
  container : Option Container
  backupContainer : Option Container
deriving DecidableEq, Repr

/-- The observable outcome of one manager operation: the manager state
afterwards, the log entries written, the runtime calls issued, and the
uncaught exception propagated to the caller (`none` when the operation
returns normally). -/
structure OpResult where
  mgr : ServerManager
  log : List LogEntry
  calls : List RtCall
  error : Option PyErr
deriving DecidableEq, Repr

/-- `create_server(args)`: warns when the server root exists, runs the
container (environment `_build_env(args)`), refreshes `_container` by a
fresh name scan and logs success; its `try` catches any failure and logs
a generic error plus the exception detail.  `rootExists` models
`os.path.exists(args.root)`. -/
def create_server (env : ClientBehavior) (rootExists : Bool)
    (m : ServerManager) (args : ServerOptions) : OpResult :=
  let warnLog : List LogEntry :=
    if rootExists then
      [⟨.warn, "Server root " ++ args.root ++ " exists - there may be problems!"⟩]
    else []
  match env.runResult with
  | .ok _ =>
    { mgr := { m with container := get_container env.containersList m.name },
      log := warnLog ++ [⟨.success, "Successfully Created Server"⟩],
      calls := [.run, .list],
      error := none }
  | .error e =>
    { mgr := m,
      log := warnLog ++ [⟨.err, "Failed to Create Server"⟩, ⟨.err, e.message⟩],
      calls := [.run],
      error := none }

/-- The host directory mounted read-write at `/backups` by the backup
container: `isnone(args.backupdir, f"{dir_above(args.root)}/{name}-Backups")`. -/
def backup_mount (name : String) (args : ServerOptions) : String :=
  isnone args.backupdir (dir_above args.root ++ "/" ++ name ++ "-Backups")

/-- `_start_backup_cont(args)`: runs the `itzg/mc-backup` companion
container, mounting the data root read-only and the backup directory
read-write, and stores the returned handle in `_backup_container`; its
`try` catches any failure and logs a generic error plus the exception
detail. -/
def start_backup_cont (env : ClientBehavior) (m : ServerManager)
    (args : ServerOptions) : OpResult :=
  match env.runBackupResult with
  | .ok c =>
    { mgr := { m with backupContainer := some c },
      log := [],
      calls := [.runBackup (backup_mount m.name args)],
      error := none }
  | .error e =>
    { mgr := m,
      log := [⟨.err, "Failed to Create Backup Service for Server"⟩, ⟨.err, e.message⟩],
      calls := [.runBackup (backup_mount m.name args)],
      error := none }

/-- `start_server()`: when `_container` is truthy and its status is
`"running"`, only warns; otherwise calls `self._container.start()`
(an `AttributeError` when the reference is `None`), refreshes
`_container` by a fresh scan and logs success.  There is no `try`, so
any failure propagates to the caller. -/
def start_server (env : ClientBehavior) (m : ServerManager) : OpResult :=
  match m.container with
  | some c =>
    if c.status = "running" then
      { mgr := m, log := [⟨.warn, "Server Already Running"⟩], calls := [], error := none }
    else
      match env.startResult with
      | .ok _ =>
        { mgr := { m with container := get_container env.containersList m.name },
          log := [⟨.success, "Successfully Started Server"⟩],
          calls := [.start, .list],
          error := none }
      | .error e =>
        { mgr := m, log := [], calls := [.start], error := some e }
  | none =>
    { mgr := m, log := [], calls := [], error := some .attributeError }

/-- `stop_server(force)`: `kill()` when forced else `stop()`, logging
success; its bare `except` catches any failure (including the
`AttributeError` on a `None` reference) and logs a generic error. -/
def stop_server (env : ClientBehavior) (m : ServerManager) (force : Bool) : OpResult :=
  match m.container with
  | none =>
    { mgr := m, log := [⟨.err, "Failed to Stop Server"⟩], calls := [], error := none }
  | some _ =>
    if force then
      match env.killResult with
      | .ok _ =>
        { mgr := m, log := [⟨.success, "Successfully Stopped Server"⟩],
          calls := [.kill], error := none }
      | .error _ =>
        { mgr := m, log := [⟨.err, "Failed to Stop Server"⟩],
          calls := [.kill], error := none }
    else
      match env.stopResult with
      | .ok _ =>
        { mgr := m, log := [⟨.success, "Successfully Stopped Server"⟩],
          calls := [.stop], error := none }
      | .error _ =>
        { mgr := m, log := [⟨.err, "Failed to Stop Server"⟩],
          calls := [.stop], error := none }

/-- `restart_server(force)`: `kill()` then `start()` when forced, else a
single `restart()`, logging success; its bare `except` catches any
failure and logs a generic error. -/
def restart_server (env : ClientBehavior) (m : ServerManager) (force : Bool) : OpResult :=
  match m.container with
  | none =>
    { mgr := m, log := [⟨.err, "Failed to Restart Server"⟩], calls := [], error := none }
  | some _ =>
    if force then
      match env.killResult with
      | .error _ =>
        { mgr := m, log := [⟨.err, "Failed to Restart Server"⟩],
          calls := [.kill], error := none }
      | .ok _ =>
        match env.startResult with
        | .error _ =>
          { mgr := m, log := [⟨.err, "Failed to Restart Server"⟩],
            calls := [.kill, .start], error := none }
        | .ok _ =>
          { mgr := m, log := [⟨.success, "Successfully Restarted Server"⟩],
            calls := [.kill, .start], error := none }
    else
      match env.restartResult with
      | .error _ =>
        { mgr := m, log := [⟨.err, "Failed to Restart Server"⟩],
          calls := [.restart], error := none }
      | .ok _ =>
        { mgr := m, log := [⟨.success, "Successfully Restarted Server"⟩],
          calls := [.restart], error := none }

/-- `delete_server()`: `stop_server(force=True)` (which never raises),
then `self._container.remove()`; the bare `except` catches any failure
(including the `AttributeError` on a `None` reference) and logs a
generic error. -/
def delete_server (env : ClientBehavior) (m : ServerManager) : OpResult :=
  match (stop_server env m true).mgr.container with
  | none =>
    { mgr := (stop_server env m true).mgr,
      log := (stop_server env m true).log ++ [⟨.err, "Failed to Delete Server"⟩],
      calls := (stop_server env m true).calls, error := none }
  | some _ =>
    match env.removeResult with
    | .ok _ =>
      { mgr := (stop_server env m true).mgr,
        log := (stop_server env m true).log ++ [⟨.success, "Successfully Deleted Server"⟩],
        calls := (stop_server env m true).calls ++ [.remove], error := none }
    | .error _ =>
      { mgr := (stop_server env m true).mgr,
        log := (stop_server env m true).log ++ [⟨.err, "Failed to Delete Server"⟩],
        calls := (stop_server env m true).calls ++ [.remove], error := none }

/-- The status line composed by `get_status` from the out-of-process
health string and the in-process container status. -/
def status_line (health : String) (c : Container) : LogEntry :=
  if c.status.toLower = "running" then
    if health.toLower = "healthy" then ⟨.success, "Server is running and healthy"⟩
    else if health.toLower = "starting" then ⟨.notice, "Server is starting"⟩
    else ⟨.warn, "Server is running but in degraded state: " ++ health⟩
  else ⟨.info, "Server is " ++ c.status⟩

/-- `get_status()`: runs `docker container inspect` out of process for
the health field (`subprocess.check_output` raises when it fails), then
reads `self._container.status` (an `AttributeError` when the reference
is `None`) and logs one composed status line.  There is no `try`, so any
failure propagates to the caller. -/
def get_status (env : ClientBehavior) (m : ServerManager) : OpResult :=
  match env.inspectHealth with
  | .error e =>
    { mgr := m, log := [], calls := [.inspect], error := some e }
  | .ok health =>
    match m.container with
    | none =>
      { mgr := m, log := [], calls := [.inspect], error := some .attributeError }
    | some c =>
      { mgr := m, log := [status_line health c], calls := [.inspect], error := none }

/-- `open_console()`: `os.system(f"docker exec -i {name} rcon-cli")`;
`os.system` returns an exit code and raises nothing. -/
def open_console (m : ServerManager) : OpResult :=
  { mgr := m, log := [], calls := [.execConsole], error := none }

/-- Concrete options: the end-to-end example of the spec
(`{version:"1.20.1", port:25565, root:"/srv/mc1", java:"17"}`), with all
optional fields absent. -/
def argsA : ServerOptions :=
  { version := "1.20.1", java := "17", port := 25565, root := "/srv/mc1",
    backupdir := none, forge := none, fabric := none }

/-- The same options with a URL-shaped forge installer source (non-empty
scheme, network location and path). -/
def argsForgeUrl : ServerOptions :=
  { argsA with forge := some "https://files.example.com/forge-installer.jar" }

/-- A container named `mc1` in the `running` state. -/
def contRunning : Container := { name := "mc1", status := "running" }

/-- A container named `mc1` in the `exited` state. -/
def contStopped : Container := { name := "mc1", status := "exited" }

/-- A manager bound to `mc1` whose container reference is null. -/
def mgrNone : ServerManager :=
  { name := "mc1", container := none, backupContainer := none }

/-- A manager bound to `mc1` holding a running container reference. -/
def mgrRunning : ServerManager :=
  { name := "mc1", container := some contRunning, backupContainer := none }

/-- A manager bound to `mc1` holding an exited container reference. -/
def mgrStopped : ServerManager :=
  { name := "mc1", container := some contStopped, backupContainer := none }

/-- A Docker client on which every call succeeds. -/
def behaviorOk : ClientBehavior :=
  { runResult := .ok (), runBackupResult := .ok { name := "mc1-Backup", status := "running" },
    startResult := .ok (), killResult := .ok (), stopResult := .ok (),
    restartResult := .ok (), removeResult := .ok (), inspectHealth := .ok "healthy",
    containersList := [contRunning] }

/-- A Docker client on which `containers.run` fails. -/
def behaviorRunFail : ClientBehavior :=
  { behaviorOk with runResult := .error (.clientError "500 Server Error") }

/-- Claim C1, counterexample: at the options of the spec's own
end-to-end example, the built environment has exactly the keys
`VERSION` and `EULA` — only two keys, so it cannot also contain three
fixed default keys (spawn protection, flight, whitelist). -/
theorem c1_counterexample :
    (build_env argsA).map Prod.fst = ["VERSION", "EULA"]
    ∧ ((build_env argsA).map Prod.fst).length < 5 :=
  ⟨rfl, by decide⟩

/-- Claim C1 (amended): for every `ServerOptions` input, the
environment builder's result contains the version key mapped to the
given version and the end-user-license-acceptance flag set to true, and
nothing else — in particular none of the three fixed default keys the
original claim names. -/
theorem c1_env_version_eula_only (args : ServerOptions) :
    ("VERSION", EnvVal.str args.version) ∈ build_env args
    ∧ ("EULA", EnvVal.bool true) ∈ build_env args
    ∧ (build_env args).map Prod.fst = ["VERSION", "EULA"] := by
  refine ⟨?_, ?_, rfl⟩ <;> simp [build_env]

/-- Claim C2, counterexample: with a forge source that is a well-formed
URL (non-empty scheme, network location and path), the built
environment still has exactly the keys `VERSION` and `EULA`; no
URL-variant mod-loader key is emitted. -/
theorem c2_counterexample :
    argsForgeUrl.forge = some "https://files.example.com/forge-installer.jar"
    ∧ (build_env argsForgeUrl).map Prod.fst = ["VERSION", "EULA"] :=
  ⟨rfl, rfl⟩

/-- Claim C2 (amended): the environment builder ignores the mod-loader
source entirely — supplying or removing a forge or fabric source string
never changes the built environment, so neither a URL-variant nor a
local-variant key is ever emitted and no URL classification happens. -/
theorem c2_modloader_source_ignored (args : ServerOptions) (s : String) :
    build_env { args with forge := some s } = build_env args
    ∧ build_env { args with fabric := some s } = build_env args :=
  ⟨rfl, rfl⟩

/-- Claim C3, counterexample: `start_server` on a manager whose
container reference is null propagates an uncaught `AttributeError` to
the caller even though every runtime call of the client would succeed —
so not every lifecycle operation catches every failure. -/
theorem c3_counterexample :
    (start_server behaviorOk mgrNone).error = some PyErr.attributeError := rfl

/-- Claim C3 (amended): create, create-backup, stop, restart, delete
and console catch every failure of the runtime client and never
re-raise; start and get_status have no handler, so their failures
propagate (see the counterexample). -/
theorem c3_all_but_start_status_swallow (env : ClientBehavior) (rootExists : Bool)
    (m : ServerManager) (args : ServerOptions) (force : Bool) :
    (create_server env rootExists m args).error = none
    ∧ (start_backup_cont env m args).error = none
    ∧ (stop_server env m force).error = none
    ∧ (restart_server env m force).error = none
    ∧ (delete_server env m).error = none
    ∧ (open_console m).error = none := by
  refine ⟨?_, ?_, ?_, ?_, ?_, rfl⟩
  · unfold create_server
    cases env.runResult <;> rfl
  · unfold start_backup_cont
    cases env.runBackupResult <;> rfl
  · unfold stop_server
    cases m.container <;> cases force <;> cases env.killResult <;>
      cases env.stopResult <;> rfl
  · unfold restart_server
    cases m.container <;> cases force <;> cases env.killResult <;>
      cases env.startResult <;> cases env.restartResult <;> rfl
  · unfold delete_server
    cases (stop_server env m true).mgr.container <;> cases env.removeResult <;> rfl

/-- Claim C4, counterexample: on a manager whose container reference is
null (so not "non-null and running"), `start_server` issues no runtime
start call and refreshes nothing: it raises an uncaught error instead,
contradicting the claim's "otherwise" branch. -/
theorem c4_counterexample :
    (start_server behaviorOk mgrNone).calls = []
    ∧ (start_server behaviorOk mgrNone).mgr = mgrNone
    ∧ (start_server behaviorOk mgrNone).error = some PyErr.attributeError :=
  ⟨rfl, rfl, rfl⟩

/-- Claim C4 (amended): if the container reference is non-null and its
status is running, `start_server` only logs a warning and issues no
runtime call; if it is non-null and not running, it issues the runtime
start call, and on success refreshes the reference by re-scanning while
on failure the exception propagates with the reference unchanged; if
the reference is null, it raises an unhandled error and issues no
runtime call at all. -/
theorem c4_start_server_cases (env : ClientBehavior) (m : ServerManager) :
    (∀ c, m.container = some c → c.status = "running" →
      start_server env m =
        { mgr := m, log := [⟨LogLevel.warn, "Server Already Running"⟩],
          calls := [], error := none })
    ∧ (∀ c, m.container = some c → ¬ c.status = "running" →
        RtCall.start ∈ (start_server env m).calls
        ∧ (env.startResult = Except.ok () →
            (start_server env m).mgr =
                { m with container := get_container env.containersList m.name }
            ∧ (start_server env m).error = none)
        ∧ (∀ e, env.startResult = Except.error e →
            (start_server env m).mgr = m ∧ (start_server env m).error = some e))
    ∧ (m.container = none →
        start_server env m =
          { mgr := m, log := [], calls := [], error := some PyErr.attributeError }) := by
  refine ⟨?_, ?_, ?_⟩
  · intro c hm hs
    simp [start_server, hm, hs]
  · intro c hm hs
    refine ⟨?_, ?_, ?_⟩
    · rcases he : env.startResult with e | u <;> simp [start_server, hm, hs, he]
    · intro he
      simp [start_server, hm, hs, he]
    · intro e he
      simp [start_server, hm, hs, he]
  · intro hm
    simp [start_server, hm]

/-- Claim C4, witness: the three branches of the amended claim at
concrete managers — running container (warn only), exited container
(start call issued), null reference (uncaught error). -/
theorem c4_witness :
    start_server behaviorOk mgrRunning =
        { mgr := mgrRunning, log := [⟨LogLevel.warn, "Server Already Running"⟩],
          calls := [], error := none }
    ∧ RtCall.start ∈ (start_server behaviorOk mgrStopped).calls
    ∧ start_server behaviorOk mgrNone =
        { mgr := mgrNone, log := [], calls := [], error := some PyErr.attributeError } := by
  refine ⟨?_, ?_, ?_⟩
  · exact (c4_start_server_cases behaviorOk mgrRunning).1 contRunning rfl rfl
  · exact ((c4_start_server_cases behaviorOk mgrStopped).2.1 contStopped rfl
      (by decide)).1
  · exact (c4_start_server_cases behaviorOk mgrNone).2.2 rfl

/-- Claim C5: when the container-run call fails during creation, the
operation logs the generic error followed by the exception detail
(after the optional root-exists warning), leaves the whole manager
state unchanged, and propagates nothing. -/
theorem c5_create_fail_state_unchanged (env : ClientBehavior) (rootExists : Bool)
    (m : ServerManager) (args : ServerOptions) (e : PyErr)
    (h : env.runResult = Except.error e) :
    (create_server env rootExists m args).mgr = m
    ∧ (create_server env rootExists m args).log =
        (if rootExists then
            [⟨LogLevel.warn, "Server root " ++ args.root ++ " exists - there may be problems!"⟩]
          else [])
          ++ [⟨LogLevel.err, "Failed to Create Server"⟩, ⟨LogLevel.err, e.message⟩]
    ∧ (create_server env rootExists m args).error = none := by
  refine ⟨?_, ?_, ?_⟩ <;> simp [create_server, h]

/-- Claim C5, witness: a concrete failing run call leaves the concrete
manager untouched and raises nothing. -/
theorem c5_witness :
    (create_server behaviorRunFail false mgrNone argsA).mgr = mgrNone
    ∧ (create_server behaviorRunFail false mgrNone argsA).error = none := by
  have h := c5_create_fail_state_unchanged behaviorRunFail false mgrNone argsA
    (PyErr.clientError "500 Server Error") rfl
  exact ⟨h.1, h.2.2⟩

/-- Claim C6, counterexample: deleting with a null container reference
logs two generic failure messages, not a single one — the forced stop
inside delete logs its own generic failure first. -/
theorem c6_counterexample :
    (delete_server behaviorOk mgrNone).log =
        [⟨LogLevel.err, "Failed to Stop Server"⟩, ⟨LogLevel.err, "Failed to Delete Server"⟩]
    ∧ ((delete_server behaviorOk mgrNone).log).length = 2 :=
  ⟨rfl, rfl⟩

/-- Claim C6 (amended): deleting with a null container reference logs
exactly two generic failure messages — one from the forced stop and one
from delete itself, neither carrying exception detail — issues no
runtime call, leaves the state unchanged and raises no unhandled
error. -/
theorem c6_delete_null_two_generic_logs (env : ClientBehavior) (m : ServerManager)
    (h : m.container = none) :
    delete_server env m =
      { mgr := m,
        log := [⟨LogLevel.err, "Failed to Stop Server"⟩,
                ⟨LogLevel.err, "Failed to Delete Server"⟩],
        calls := [], error := none } := by
  simp [delete_server, stop_server, h]

/-- Claim C6, witness: the amended claim at a concrete manager with a
null reference. -/
theorem c6_witness :
    delete_server behaviorOk mgrNone =
      { mgr := mgrNone,
        log := [⟨LogLevel.err, "Failed to Stop Server"⟩,
                ⟨LogLevel.err, "Failed to Delete Server"⟩],
        calls := [], error := none } :=
  c6_delete_null_two_generic_logs behaviorOk mgrNone rfl

/-- Claim C7: when neither a forge nor a fabric source is set, the
built environment has exactly the keys `VERSION` and `EULA`, neither of
which is a mod-loader key — so it contains no mod-loader keys. -/
theorem c7_no_modloader_keys (args : ServerOptions)
    (_h1 : args.forge = none) (_h2 : args.fabric = none) :
    (build_env args).map Prod.fst = ["VERSION", "EULA"]
    ∧ ∀ k ∈ (build_env args).map Prod.fst, k = "VERSION" ∨ k = "EULA" := by
  refine ⟨rfl, ?_⟩
  intro k hk
  simpa [build_env] using hk

/-- Claim C7, witness: the concrete options with both sources absent. -/
theorem c7_witness :
    (build_env argsA).map Prod.fst = ["VERSION", "EULA"] :=
  (c7_no_modloader_keys argsA rfl rfl).1

/-- Claim C8: when no backup directory is supplied, the directory the
backup container mounts at `/backups` is the parent directory of the
data root (as computed by `dir_above`) followed by `<name>-Backups` —
a sibling of the data root. -/
theorem c8_backup_default_dir (env : ClientBehavior) (m : ServerManager)
    (args : ServerOptions) (h : args.backupdir = none) :
    (start_backup_cont env m args).calls =
      [RtCall.runBackup (dir_above args.root ++ "/" ++ m.name ++ "-Backups")] := by
  cases he : env.runBackupResult <;>
    simp [start_backup_cont, backup_mount, isnone, h, he]

/-- Claim C8, witness: for data root `/srv/mc1` and name `mc1`, the
default backup mount evaluates to `/srv//mc1-Backups`, the sibling
`mc1-Backups` of the data root under its parent `/srv/` (the duplicated
slash comes from the source's format string and is path-equivalent). -/
theorem c8_witness :
    argsA.backupdir = none
    ∧ (start_backup_cont behaviorOk mgrNone argsA).calls =
        [RtCall.runBackup "/srv//mc1-Backups"] := by
  refine ⟨rfl, ?_⟩
  have h := c8_backup_default_dir behaviorOk mgrNone argsA rfl
  rw [h]
  decide

/-- Claim C9: `dir_above` always returns a string ending in `/` — in
particular it returns `/` (not `None`) on input `/`, contrary to its
own docstring; as a total `String`-valued function it never returns a
null value. -/
theorem c9_dir_above_trailing_slash :
    (∀ s : String, ∃ t : String, dir_above s = t ++ "/")
    ∧ dir_above "/" = "/" := by
  constructor
  · intro s
    exact ⟨_, rfl⟩
  · decide

/-- Frame helper: `stop_server` never changes the manager fields. -/
theorem stop_server_mgr (env : ClientBehavior) (m : ServerManager) (force : Bool) :
    (stop_server env m force).mgr = m := by
  unfold stop_server
  cases m.container <;> cases force <;> cases env.killResult <;>
    cases env.stopResult <;> rfl

/-- Claim C10: stop, restart and get_status (and likewise delete and
console) never reassign the bound name, the container reference or the
backup-container reference — the manager state they return is exactly
the one they were given. -/
theorem c10_stop_restart_status_frame (env : ClientBehavior) (m : ServerManager)
    (force : Bool) :
    (stop_server env m force).mgr = m
    ∧ (restart_server env m force).mgr = m
    ∧ (get_status env m).mgr = m
    ∧ (delete_server env m).mgr = m
    ∧ (open_console m).mgr = m := by
  refine ⟨stop_server_mgr env m force, ?_, ?_, ?_, rfl⟩
  · unfold restart_server
    cases m.container <;> cases force <;> cases env.killResult <;>
      cases env.startResult <;> cases env.restartResult <;> rfl
  · unfold get_status
    cases env.inspectHealth <;> cases m.container <;> rfl
  · unfold delete_server
    cases (stop_server env m true).mgr.container <;> cases env.removeResult <;>
      simpa using stop_server_mgr env m true
